import Mathlib

/-!
Shallow embedding of `src/main.py` from the vlm-object-verifier repository.

The program is a two-stage caption-verification pipeline:
`extract_objects_with_llm` (text extractor), `detect_objects_with_yolo`
(image detector), `verify_caption` (orchestrator and reconciliation),
and `main` (command-line surface).  External services (the Groq chat
call plus `json.loads`, and the YOLO model inference) are modelled as
oracle inputs: the parsed JSON payload (or a transport/parse error) for
the text service, and the list of per-box class names for the detector.
-/

namespace VLM

/-- A parsed JSON value, as produced by `json.loads` in the extractor.
Numbers are modelled as integers (the object-noun payloads at issue are
strings; the number case only matters for the `str(item)` coercion). -/
inductive Json where
  | null
  | bool (b : Bool)
  | num (n : Int)
  | str (s : String)
  | arr (xs : List Json)
  | obj (kvs : List (String × Json))

/-- A single-quote character, used by Python `repr` when rendering
strings inside containers. -/
def sq : String := String.singleton (Char.ofNat 39)

mutual

/-- Python `repr` of a JSON-derived value: `None`, `True`/`False`,
decimal integers, single-quoted strings, `[...]` lists, and dicts in
braces with single-quoted keys. -/
def pyRepr : Json → String
  | Json.null => "None"
  | Json.bool b => if b then "True" else "False"
  | Json.num n => toString n
  | Json.str s => sq ++ s ++ sq
  | Json.arr xs => "[" ++ pyReprList xs ++ "]"
  | Json.obj kvs => "\x7b" ++ pyReprObj kvs ++ "\x7d"

/-- Comma-separated Python `repr` of the elements of a list. -/
def pyReprList : List Json → String
  | [] => ""
  | [x] => pyRepr x
  | x :: y :: rest => pyRepr x ++ ", " ++ pyReprList (y :: rest)

/-- Comma-separated Python `repr` of the entries of a dict. -/
def pyReprObj : List (String × Json) → String
  | [] => ""
  | [(k, v)] => sq ++ k ++ sq ++ ": " ++ pyRepr v
  | (k, v) :: e :: rest =>
      sq ++ k ++ sq ++ ": " ++ pyRepr v ++ ", " ++ pyReprObj (e :: rest)

end

/-- Python `str()` of a JSON-derived value: identical to `repr` except
that a top-level string is rendered without quotes.  This is the
`str(item)` coercion on line 59 of `src/main.py`. -/
def pyStr : Json → String
  | Json.str s => s
  | j => pyRepr j

/-- The normalization the source applies to every token: `.lower()`
(lines 59 and 80 of `src/main.py`), modelled as per-character
lowercasing.  Note the source never calls `.strip()`: there is no
whitespace trimming. -/
def normalizeName (s : String) : String := String.mk (s.data.map Char.toLower)

/-- Python truthiness test `not GROQ_API_KEY` (line 21): true when the
variable is unset (`None`) or the empty string. -/
def keyFalsy : Option String → Bool
  | none => true
  | some s => s.isEmpty

/-- The loop on lines 52-55: scan the dict entries in order and take
the first value that is a list (`break` on the first hit). -/
def findList : List (String × Json) → Option (List Json)
  | [] => none
  | (_, Json.arr xs) :: _ => some xs
  | _ :: rest => findList rest

/-- Lines 47-57: resolve the candidate list inside the parsed payload.
A top-level list is used directly; for a dict, the first list value is
taken, but if none is found (or the found list is empty, leaving
`extracted_list` falsy) a `ValueError` is raised; any other top-level
type raises (`data.items()` on a non-dict).  `Except.error` marks the
raised exception, which the except clause of the extractor will catch. -/
def resolveList : Json → Except Unit (List Json)
  | Json.arr xs => Except.ok xs
  | Json.obj kvs =>
      match findList kvs with
      | some xs => if xs.isEmpty then Except.error () else Except.ok xs
      | none => Except.error ()
  | _ => Except.error ()

/-- `extract_objects_with_llm` (lines 19-63).  `apiKey` is the
`GROQ_API_KEY` environment value; `service` is the outcome of the chat
call plus `json.loads` (`Except.error` = any transport or parse
exception).  The missing-key `ValueError` (line 22) is raised *before*
the `try`, so it propagates (`Except.error`); every exception inside
the `try` is caught and converted to the empty list (line 63). -/
def extractObjects (apiKey : Option String) (service : Except Unit Json) :
    Except String (List String) :=
  if keyFalsy apiKey then
    Except.error "GROQ_API_KEY not found. Please set it in your .env file."
  else
    Except.ok <|
      match service with
      | Except.error _ => []
      | Except.ok data =>
        match resolveList data with
        | Except.error _ => []
        | Except.ok xs => xs.map fun item => normalizeName (pyStr item)

/-- `detect_objects_with_yolo` (lines 66-82): lowercase each detected
class name, collect them into a set, return the set as a list.  The
Python set is modelled by `List.dedup` (iteration order of a Python
set is unspecified; only the underlying set of names is observable
downstream, where the list is converted back to a set). -/
def detectObjects (classNames : List String) : List String :=
  (classNames.map normalizeName).dedup

/-- The verification report of step 3 (lines 107-113). -/
structure Report where
  verified : Finset String
  hallucinated : Finset String
deriving DecidableEq

/-- Lines 109-113: `verified = caption_set ∩ image_set`,
`hallucinated = caption_set - image_set`. -/
def reconcile (captionSet imageSet : Finset String) : Report :=
  { verified := captionSet ∩ imageSet, hallucinated := captionSet \ imageSet }

/-- Observable pipeline events of one `verify_caption` run. -/
inductive Event where
  | extractCalled
  | detectCalled
  | reconciled
deriving DecidableEq

/-- Outcome of one `verify_caption` run: the pipeline events that
occurred, the report if reconciliation completed, and the message of an
uncaught exception if the run crashed. -/
structure RunResult where
  events : List Event
  report : Option Report
  crashed : Option String
deriving DecidableEq

/-- `verify_caption` (lines 85-125).  Step 1 calls the extractor; an
empty result returns early (lines 94-96) without ever calling the
detector.  Step 2 calls the detector; an empty result returns early
(lines 102-104) without reconciling.  Step 3 reconciles the two sets.
A `ValueError` from the missing API key propagates uncaught. -/
def verifyCaption (apiKey : Option String) (service : Except Unit Json)
    (classNames : List String) : RunResult :=
  match extractObjects apiKey service with
  | Except.error msg =>
      { events := [Event.extractCalled], report := none, crashed := some msg }
  | Except.ok captionObjects =>
    if captionObjects.isEmpty then
      { events := [Event.extractCalled], report := none, crashed := none }
    else
      let imageObjects := detectObjects classNames
      if imageObjects.isEmpty then
        { events := [Event.extractCalled, Event.detectCalled],
          report := none, crashed := none }
      else
        { events := [Event.extractCalled, Event.detectCalled, Event.reconciled],
          report := some (reconcile captionObjects.toFinset imageObjects.toFinset),
          crashed := none }

/-- `main` (lines 144-169), after argument parsing: if the image path
does not exist, print an error and `return` — the interpreter then
exits normally with code 0 (line 167 is a plain `return`, not
`exit(1)`).  Otherwise run `verify_caption`; an uncaught exception
makes the interpreter exit with code 1.  The result is the process
exit code paired with the run outcome (`none` when the pipeline never
ran). -/
def mainRun (imageExists : Bool) (apiKey : Option String)
    (service : Except Unit Json) (classNames : List String) :
    Nat × Option RunResult :=
  if imageExists then
    let r := verifyCaption apiKey service classNames
    (if r.crashed.isSome then 1 else 0, some r)
  else
    (0, none)

/-! ## Theorems about the embedded program -/

/-- C1: the reconciliation step produces `verified = C ∩ D` and
`hallucinated = C \ D` under exact normalized-string equality; an
object in `D` but not in `C` appears in neither output set; and
`reconcile ∅ D` yields two empty sets for any `D`. -/
theorem c1_reconcile_inter_sdiff (C D : Finset String) :
    (reconcile C D).verified = C ∩ D ∧
    (reconcile C D).hallucinated = C \ D ∧
    (∀ x ∈ D, x ∉ C →
      x ∉ (reconcile C D).verified ∧ x ∉ (reconcile C D).hallucinated) ∧
    reconcile ∅ D = { verified := ∅, hallucinated := ∅ } := by
  refine ⟨rfl, rfl, ?_, ?_⟩
  · intro x _ hxC
    exact ⟨by simp [reconcile, hxC], by simp [reconcile, hxC]⟩
  · simp [reconcile]

/-- C1 witness: the asymmetry clause at a concrete input — `"table"`
is detected but not mentioned, so it appears in neither output. -/
theorem c1_reconcile_inter_sdiff_witness :
    "table" ∉ (reconcile {"cat", "dog"} {"dog", "table"}).verified ∧
    "table" ∉ (reconcile {"cat", "dog"} {"dog", "table"}).hallucinated :=
  (c1_reconcile_inter_sdiff {"cat", "dog"} {"dog", "table"}).2.2.1 "table"
    (by decide) (by decide)

/-- C2 counterexample: normalization does not trim whitespace — the
source applies only `.lower()` — so `ObjectName(" dog ")` differs from
`ObjectName("Dog")`, and the extractor emits the untrimmed token
`" dog "` for the element `" Dog "`. -/
theorem c2_no_trimming_counterexample :
    normalizeName " dog " ≠ normalizeName "Dog" ∧
    extractObjects (some "k") (Except.ok (Json.arr [Json.str " Dog "])) =
      Except.ok [" dog "] :=
  ⟨by decide, rfl⟩

/-- C2 (amended): normalization is lowercasing only — no whitespace
trimming — applied by both the text extractor and the image detector
to every token; `ObjectName("Dog")` equals `ObjectName("dog")` but not
`ObjectName(" dog ")`. -/
theorem c2_normalization_lowercase_only (key : String)
    (hkey : key.isEmpty = false) (items : List Json) (labels : List String) :
    extractObjects (some key) (Except.ok (Json.arr items)) =
      Except.ok (items.map fun item => normalizeName (pyStr item)) ∧
    (∀ t ∈ detectObjects labels, ∃ l ∈ labels, t = normalizeName l) ∧
    normalizeName "Dog" = normalizeName "dog" ∧
    normalizeName "Dog" ≠ normalizeName " dog " := by
  refine ⟨?_, ?_, by decide, by decide⟩
  · simp [extractObjects, keyFalsy, hkey, resolveList]
  · intro t ht
    rcases List.mem_map.mp (List.mem_dedup.mp ht) with ⟨l, hl, rfl⟩
    exact ⟨l, hl, rfl⟩

/-- C2 witness: the amended normalization theorem at concrete inputs. -/
theorem c2_normalization_lowercase_only_witness :
    extractObjects (some "k") (Except.ok (Json.arr [Json.str "Dog"])) =
      Except.ok ([Json.str "Dog"].map fun item => normalizeName (pyStr item)) :=
  (c2_normalization_lowercase_only "k" (by decide) [Json.str "Dog"] ["Cat"]).1

/-- C3: if extraction yields an empty set the orchestrator returns
immediately — detection is never invoked and no reconciliation happens;
if extraction succeeds but detection yields an empty set, the run stops
after the detection call with no reconciliation and no report. -/
theorem c3_orchestrator_short_circuit (apiKey : Option String)
    (service : Except Unit Json) (classNames : List String) :
    (extractObjects apiKey service = Except.ok [] →
      verifyCaption apiKey service classNames =
        { events := [Event.extractCalled], report := none, crashed := none }) ∧
    (∀ tokens, extractObjects apiKey service = Except.ok tokens → tokens ≠ [] →
      detectObjects classNames = [] →
      verifyCaption apiKey service classNames =
        { events := [Event.extractCalled, Event.detectCalled],
          report := none, crashed := none }) := by
  constructor
  · intro h
    simp [verifyCaption, h]
  · intro tokens h hne hdet
    cases tokens with
    | nil => exact absurd rfl hne
    | cons a as => simp [verifyCaption, h, hdet]

/-- C3 witness: both short-circuits at concrete inputs — a failed
extraction stops before detection; a successful extraction with zero
detections stops before reconciliation. -/
theorem c3_orchestrator_short_circuit_witness :
    verifyCaption (some "k") (Except.error ()) ["dog"] =
      { events := [Event.extractCalled], report := none, crashed := none } ∧
    verifyCaption (some "k") (Except.ok (Json.arr [Json.str "Dog"])) [] =
      { events := [Event.extractCalled, Event.detectCalled],
        report := none, crashed := none } :=
  ⟨(c3_orchestrator_short_circuit (some "k") (Except.error ()) ["dog"]).1 rfl,
   (c3_orchestrator_short_circuit (some "k")
      (Except.ok (Json.arr [Json.str "Dog"])) []).2 ["dog"] rfl (by decide) rfl⟩

/-- C4: every completed reconciliation satisfies
`verified ∪ hallucinated = C`, `verified ∩ hallucinated = ∅` and
`verified ⊆ D`. -/
theorem c4_reconciliation_invariants (C D : Finset String) :
    (reconcile C D).verified ∪ (reconcile C D).hallucinated = C ∧
    (reconcile C D).verified ∩ (reconcile C D).hallucinated = ∅ ∧
    (reconcile C D).verified ⊆ D := by
  refine ⟨?_, ?_, ?_⟩
  · ext x
    simp [reconcile]
    tauto
  · ext x
    simp [reconcile]
  · intro x hx
    exact (Finset.mem_inter.mp hx).2

/-- C4 witness: the invariants at spec Scenario 1 sets. -/
theorem c4_reconciliation_invariants_witness :
    (reconcile {"cat", "dog", "couch"} {"dog", "couch", "table"}).verified ∪
        (reconcile {"cat", "dog", "couch"} {"dog", "couch", "table"}).hallucinated =
      {"cat", "dog", "couch"} ∧
    (reconcile {"cat", "dog", "couch"} {"dog", "couch", "table"}).verified ∩
        (reconcile {"cat", "dog", "couch"} {"dog", "couch", "table"}).hallucinated =
      ∅ ∧
    (reconcile {"cat", "dog", "couch"} {"dog", "couch", "table"}).verified ⊆
      {"dog", "couch", "table"} :=
  c4_reconciliation_invariants {"cat", "dog", "couch"} {"dog", "couch", "table"}

/-- C5: payload resolution in the extractor — a top-level list is used
directly; for a dict the first list value (in entry order) is used; any
other payload shape (a dict with no list value, a boolean, a string, a
number, or null — every remaining constructor of the payload type)
yields the failure outcome (the empty set); the wrapped mixed-case
response resolves to `["cat", "dog"]`. -/
theorem c5_payload_resolution (key : String) (hkey : key.isEmpty = false) :
    (∀ xs : List Json,
      extractObjects (some key) (Except.ok (Json.arr xs)) =
        Except.ok (xs.map fun item => normalizeName (pyStr item))) ∧
    (∀ kvs xs, findList kvs = some xs →
      extractObjects (some key) (Except.ok (Json.obj kvs)) =
        Except.ok (xs.map fun item => normalizeName (pyStr item))) ∧
    (∀ kvs, findList kvs = none →
      extractObjects (some key) (Except.ok (Json.obj kvs)) = Except.ok []) ∧
    (∀ b, extractObjects (some key) (Except.ok (Json.bool b)) = Except.ok []) ∧
    (∀ s, extractObjects (some key) (Except.ok (Json.str s)) = Except.ok []) ∧
    (∀ n : Int, extractObjects (some key) (Except.ok (Json.num n)) = Except.ok []) ∧
    extractObjects (some key) (Except.ok Json.null) = Except.ok [] ∧
    extractObjects (some key)
        (Except.ok (Json.obj [("objects", Json.arr [Json.str "Cat", Json.str "Dog"])])) =
      Except.ok ["cat", "dog"] := by
  refine ⟨?_, ?_, ?_, ?_, ?_, ?_, ?_, ?_⟩
  · intro xs
    simp [extractObjects, keyFalsy, hkey, resolveList]
  · intro kvs xs h
    cases xs with
    | nil => simp [extractObjects, keyFalsy, hkey, resolveList, h]
    | cons a as => simp [extractObjects, keyFalsy, hkey, resolveList, h]
  · intro kvs h
    simp [extractObjects, keyFalsy, hkey, resolveList, h]
  · intro b
    simp [extractObjects, keyFalsy, hkey, resolveList]
  · intro s
    simp [extractObjects, keyFalsy, hkey, resolveList]
  · intro n
    simp [extractObjects, keyFalsy, hkey, resolveList]
  · simp [extractObjects, keyFalsy, hkey, resolveList]
  · have h : findList [("objects", Json.arr [Json.str "Cat", Json.str "Dog"])] =
        some [Json.str "Cat", Json.str "Dog"] := rfl
    have h1 : normalizeName (pyStr (Json.str "Cat")) = "cat" := rfl
    have h2 : normalizeName (pyStr (Json.str "Dog")) = "dog" := rfl
    simp [extractObjects, keyFalsy, hkey, resolveList, h, h1, h2]

/-- C5 witness: Scenario 4 of the spec and a dict with no list value,
at a concrete key. -/
theorem c5_payload_resolution_witness :
    extractObjects (some "k")
        (Except.ok (Json.obj [("objects", Json.arr [Json.str "Cat", Json.str "Dog"])])) =
      Except.ok ["cat", "dog"] ∧
    extractObjects (some "k") (Except.ok (Json.obj [("n", Json.num 1)])) =
      Except.ok [] :=
  ⟨(c5_payload_resolution "k" (by decide)).2.2.2.2.2.2.2,
   (c5_payload_resolution "k" (by decide)).2.2.1 [("n", Json.num 1)] rfl⟩

/-- C6: with the credential present, every transport or parse error in
the text extractor is caught at the extractor boundary and converted to
the empty list; no service outcome whatsoever makes the extractor
propagate an exception. -/
theorem c6_errors_downgraded (key : String) (hkey : key.isEmpty = false) :
    extractObjects (some key) (Except.error ()) = Except.ok [] ∧
    (∀ data, resolveList data = Except.error () →
      extractObjects (some key) (Except.ok data) = Except.ok []) ∧
    (∀ service, ∃ tokens,
      extractObjects (some key) service = Except.ok tokens) := by
  refine ⟨?_, ?_, ?_⟩
  · simp [extractObjects, keyFalsy, hkey]
  · intro data h
    simp [extractObjects, keyFalsy, hkey, h]
  · intro service
    cases service with
    | error e => exact ⟨[], by simp [extractObjects, keyFalsy, hkey]⟩
    | ok data =>
      cases hr : resolveList data with
      | error e => exact ⟨[], by simp [extractObjects, keyFalsy, hkey, hr]⟩
      | ok xs =>
          exact ⟨xs.map fun item => normalizeName (pyStr item),
            by simp [extractObjects, keyFalsy, hkey, hr]⟩

/-- C6 witness: a transport error and an unusable payload, both
downgraded to the empty set at a concrete key. -/
theorem c6_errors_downgraded_witness :
    extractObjects (some "k") (Except.error ()) = Except.ok [] ∧
    extractObjects (some "k") (Except.ok (Json.num 7)) = Except.ok [] :=
  ⟨(c6_errors_downgraded "k" (by decide)).1,
   (c6_errors_downgraded "k" (by decide)).2.1 (Json.num 7) rfl⟩

/-- C7 counterexample: with the credential absent, the run still enters
the pipeline — the extraction step is invoked and the error is raised
inside it, so the event list at the crash is nonempty, refuting "raised
at startup, before any pipeline step runs" (the source checks the key
on line 21, inside `extract_objects_with_llm`, not at module start). -/
theorem c7_not_at_startup_counterexample :
    (verifyCaption none (Except.ok (Json.arr [Json.str "dog"])) ["dog"]).crashed =
      some "GROQ_API_KEY not found. Please set it in your .env file." ∧
    (verifyCaption none (Except.ok (Json.arr [Json.str "dog"])) ["dog"]).events =
      [Event.extractCalled] ∧
    (verifyCaption none (Except.ok (Json.arr [Json.str "dog"])) ["dog"]).events ≠
      [] :=
  ⟨rfl, rfl, by decide⟩

/-- C7 (amended): a missing (or empty) credential raises a fatal error
inside the extractor at its first invocation — the first pipeline step
— which propagates uncaught: the run crashes with exit code 1, the
detector is never invoked and no report is produced; the error is not
downgraded to the empty-set extraction failure, but neither is it
raised at process startup before the pipeline begins. -/
theorem c7_config_error_fatal_at_first_extraction (apiKey : Option String)
    (hk : keyFalsy apiKey = true) (service : Except Unit Json)
    (classNames : List String) :
    verifyCaption apiKey service classNames =
      { events := [Event.extractCalled], report := none,
        crashed := some "GROQ_API_KEY not found. Please set it in your .env file." } ∧
    (mainRun true apiKey service classNames).1 = 1 := by
  have h : extractObjects apiKey service =
      Except.error "GROQ_API_KEY not found. Please set it in your .env file." := by
    simp [extractObjects, hk]
  constructor
  · simp [verifyCaption, h]
  · simp [mainRun, verifyCaption, h]

/-- C7 witness: the fatal missing-credential crash at concrete inputs. -/
theorem c7_config_error_fatal_witness :
    verifyCaption none (Except.error ()) [] =
      { events := [Event.extractCalled], report := none,
        crashed := some "GROQ_API_KEY not found. Please set it in your .env file." } :=
  (c7_config_error_fatal_at_first_extraction none rfl (Except.error ()) []).1

/-- C8 counterexample: invoked with a nonexistent image path, `main`
prints an error and returns normally (line 167 is `return`, not
`exit(1)`), so the process exit code is 0 — not non-zero as claimed. -/
theorem c8_missing_image_exits_zero_counterexample :
    (mainRun false (some "k") (Except.ok (Json.arr [Json.str "dog"])) ["dog"]).1 =
      0 ∧
    ¬ (mainRun false (some "k") (Except.ok (Json.arr [Json.str "dog"])) ["dog"]).1 ≠
      0 :=
  ⟨rfl, by decide⟩

/-- C8 (amended): with a nonexistent image path the process prints an
error and returns without running any pipeline step, exiting with
code 0. -/
theorem c8_missing_image_returns_without_pipeline (apiKey : Option String)
    (service : Except Unit Json) (classNames : List String) :
    mainRun false apiKey service classNames = (0, none) := rfl

/-- C9 counterexample: the extractor does not enforce uniqueness — it
returns a plain list comprehension, so the case-variant pair
`["Dog", "dog"]` comes back as the duplicate list `["dog", "dog"]`. -/
theorem c9_extractor_duplicates_counterexample :
    extractObjects (some "k")
        (Except.ok (Json.arr [Json.str "Dog", Json.str "dog"])) =
      Except.ok ["dog", "dog"] ∧
    ¬ (["dog", "dog"] : List String).Nodup :=
  ⟨rfl, by decide⟩

/-- C9 (amended): the detector output contains each distinct lowercased
class label at most once, but the extractor returns a raw token list
that may contain duplicates; uniqueness on the caption side is enforced
only when the orchestrator converts the list to a set at reconciliation
(line 109 of the source). -/
theorem c9_detector_unique_extractor_raw (labels : List String) (key : String)
    (hkey : key.isEmpty = false) (xs : List Json) (apiKey : Option String)
    (service : Except Unit Json) :
    (detectObjects labels).Nodup ∧
    extractObjects (some key) (Except.ok (Json.arr xs)) =
      Except.ok (xs.map fun item => normalizeName (pyStr item)) ∧
    (∀ r, (verifyCaption apiKey service labels).report = some r →
      ∃ tokens, extractObjects apiKey service = Except.ok tokens ∧
        r = reconcile tokens.toFinset (detectObjects labels).toFinset) := by
  refine ⟨List.nodup_dedup _,
    by simp [extractObjects, keyFalsy, hkey, resolveList], ?_⟩
  intro r hr
  cases hext : extractObjects apiKey service with
  | error msg => simp [verifyCaption, hext] at hr
  | ok tokens =>
    refine ⟨tokens, rfl, ?_⟩
    by_cases hne : tokens.isEmpty = true
    · simp [verifyCaption, hext, hne] at hr
    · by_cases hdet : (detectObjects labels).isEmpty = true
      · simp [verifyCaption, hext, hne, hdet] at hr
      · simp [verifyCaption, hext, hne, hdet] at hr
        exact hr.symm

/-- C9 witness: detector uniqueness on case-variant labels, and the
set-conversion of a concrete reconciling run. -/
theorem c9_detector_unique_extractor_raw_witness :
    (detectObjects ["Dog", "dog", "Cat"]).Nodup ∧
    (∃ tokens,
      extractObjects (some "k") (Except.ok (Json.arr [Json.str "Dog"])) =
        Except.ok tokens ∧
      reconcile {"dog"} {"dog"} =
        reconcile tokens.toFinset (detectObjects ["dog"]).toFinset) :=
  ⟨(c9_detector_unique_extractor_raw ["Dog", "dog", "Cat"] "k" (by decide) []
      (some "k") (Except.error ())).1,
   (c9_detector_unique_extractor_raw ["dog"] "k" (by decide) [] (some "k")
      (Except.ok (Json.arr [Json.str "Dog"]))).2.2
     (reconcile {"dog"} {"dog"}) (by decide)⟩

/-- C10: every element of an accepted JSON list is coerced to a string
(Python `str()`) before lowercasing, so elements of any JSON type never
make extraction fail, and every output token is the lowercase rendering
of its element — e.g. `3`, `True`, `None`, a dict and a nested list all
yield tokens. -/
theorem c10_str_coercion_total (key : String) (hkey : key.isEmpty = false)
    (xs : List Json) :
    extractObjects (some key) (Except.ok (Json.arr xs)) =
      Except.ok (xs.map fun item => normalizeName (pyStr item)) ∧
    extractObjects (some key)
        (Except.ok (Json.arr [Json.num 3, Json.bool true, Json.null,
          Json.obj [("A", Json.num 1)], Json.arr [Json.str "B"]])) =
      Except.ok ["3", "true", "none", "\x7b\x27a\x27: 1\x7d", "[\x27b\x27]"] := by
  constructor
  · simp [extractObjects, keyFalsy, hkey, resolveList]
  · have h1 : normalizeName (pyStr (Json.num 3)) = "3" := rfl
    have h2 : normalizeName (pyStr (Json.bool true)) = "true" := rfl
    have h3 : normalizeName (pyStr Json.null) = "none" := rfl
    have h4 : normalizeName (pyStr (Json.obj [("A", Json.num 1)])) =
        "\x7b\x27a\x27: 1\x7d" := rfl
    have h5 : normalizeName (pyStr (Json.arr [Json.str "B"])) =
        "[\x27b\x27]" := rfl
    simp [extractObjects, keyFalsy, hkey, resolveList, h1, h2, h3, h4, h5]

/-- C10 witness: the mixed-type payload evaluated at a concrete key. -/
theorem c10_str_coercion_total_witness :
    extractObjects (some "k")
        (Except.ok (Json.arr [Json.num 3, Json.bool true, Json.null,
          Json.obj [("A", Json.num 1)], Json.arr [Json.str "B"]])) =
      Except.ok ["3", "true", "none", "\x7b\x27a\x27: 1\x7d", "[\x27b\x27]"] :=
  (c10_str_coercion_total "k" (by decide) []).2

end VLM
